import Mathlib

/-!
Verification development for the moneta-agents backend.

The definitions below are a shallow embedding of the Python sources:
  src/src/backend/foundry/orchestrators/foundry_banking_orchestrator.py
  src/src/backend/foundry/orchestrators/open_ai_banking_orchestrator.py
  src/src/backend/foundry/handler.py
Pure control flow is translated to Lean functions; external collaborators
(the workflow engine run, agent creation, the persistence store, the id
generator) are passed in as explicit inputs, and the sequence of store
writes and orchestrator invocations is returned as an explicit trace.
-/

namespace Moneta

/-- A conversation message as the handler and orchestrators use it:
a dict with keys role, name, content (msg.get with defaults applied). -/
structure Msg where
  role : String
  name : Option String
  content : String
deriving DecidableEq, Repr

/-- The object carried by workflow events that the reduction loop reads a
text field from (agent_response of a RequestInfoEvent, or the data of an
ExecutorCompletedEvent). -/
structure AgentResponse where
  text : String
deriving DecidableEq, Repr

/-- The event shapes distinguished by the isinstance checks in
process_conversation: RequestInfoEvent (the delegation-request shape,
whose data may carry an agent_response with in-progress text),
ExecutorCompletedEvent (the shape emitted when a specialist or the
coordinator completes, including workflow completion), and any other
event, which the loop ignores. -/
inductive WorkflowEvent where
  | requestInfo (agentResponse : Option AgentResponse) (sourceExecutorId : Option String)
  | executorCompleted (data : Option AgentResponse) (executorId : Option String)
  | otherEvent
deriving DecidableEq, Repr

/-- Python `x or default` on an optional string: None and the empty string
are falsy, so both fall back to the default. -/
def orDefault (s : Option String) (d : String) : String :=
  match s with
  | none => d
  | some t => if t = "" then d else t

/-- One step of the event-reduction loop in process_conversation: the
accumulator is the pair (final_response, responding_agent), and an event
overwrites it exactly when the truthiness checks of the source succeed
(the response object is present and its text is non-empty). -/
def reduceStep (acc : String × String) (ev : WorkflowEvent) : String × String :=
  match ev with
  | .requestInfo (some r) src =>
      if r.text ≠ "" then (r.text, orDefault src "bank-coordinator") else acc
  | .requestInfo none _ => acc
  | .executorCompleted (some d) eid =>
      if d.text ≠ "" then (d.text, orDefault eid "bank-coordinator") else acc
  | .executorCompleted none _ => acc
  | .otherEvent => acc

/-- The full reduction of the event stream, with the initial accumulator
used by the source: final_response = "" and responding_agent =
"bank-coordinator". -/
def reduceEvents (events : List WorkflowEvent) : String × String :=
  events.foldl reduceStep ("", "bank-coordinator")

/-- The candidate final answer an event contributes, if any: its text and
the attributed agent.  Derived from the same truthiness checks as
reduceStep; used to state the last-candidate-wins property. -/
def eventCandidate : WorkflowEvent → Option (String × String)
  | .requestInfo (some r) src =>
      if r.text ≠ "" then some (r.text, orDefault src "bank-coordinator") else none
  | .executorCompleted (some d) eid =>
      if d.text ≠ "" then some (d.text, orDefault eid "bank-coordinator") else none
  | _ => none

/-- The literal fallback substituted when the reduction yields empty text. -/
def fallback_apology : String := "I apologize, but I was unable to generate a response."

/-- The fixed reply returned when no non-empty input message remains. -/
def no_message_reply : Msg :=
  ⟨"assistant", some "coordinator", "I didn\x27t receive a message. How can I help you?"⟩

/-- The reply built by the except-branch of process_conversation. -/
def error_reply : Msg :=
  ⟨"assistant", some "coordinator", "I encountered an error while processing your request. Please try again."⟩

/-- The orchestrator state read by lazy initialization: the initialized
flag and the configured Foundry endpoint (None models an unset or empty
environment variable). -/
structure OrchState where
  initialized : Bool
  foundryEndpoint : Option String
deriving DecidableEq, Repr

/-- Errors that lazy initialization can raise: the ValueError for a
missing endpoint, or a failure from agent creation. -/
inductive OrchError where
  | missingEndpoint
  | initFailure (msg : String)
deriving DecidableEq, Repr

/-- Lazy initialization (the method named with a leading underscore in the
source): a no-op when already initialized; otherwise it raises when the
endpoint is falsy, and then performs agent creation, whose outcome is an
external input.  Note that this method can raise and is called outside
the try block of process_conversation. -/
def ensure_initialized (st : OrchState) (createAgents : Except String Unit) :
    Except OrchError Unit :=
  if st.initialized then .ok ()
  else if st.foundryEndpoint.getD "" = "" then .error .missingEndpoint
  else
    match createAgents with
    | .error e => .error (.initFailure e)
    | .ok _ => .ok ()

/-- The truthiness filter applied to each message content in the history
conversion loop (if content:). -/
def hasContent (m : Msg) : Bool := m.content ≠ ""

/-- process_conversation of the banking orchestrators.  Inputs: the
orchestrator state, the agent-creation outcome, the conversation messages,
and the outcome of the workflow run (the emitted event stream, or the
exception it raised).  Output: the reply message together with the list of
messages handed to the workflow run (none when the workflow was never
invoked because no non-empty message remained), or the uncaught exception
from lazy initialization. -/
def process_conversation (st : OrchState) (createAgents : Except String Unit)
    (conversation_messages : List Msg)
    (runOutcome : Except String (List WorkflowEvent)) :
    Except OrchError (Msg × Option (List Msg)) :=
  match ensure_initialized st createAgents with
  | .error e => .error e
  | .ok _ =>
    let chat_messages := conversation_messages.filter hasContent
    if chat_messages.isEmpty then
      .ok (no_message_reply, none)
    else
      match runOutcome with
      | .error _ => .ok (error_reply, some chat_messages)
      | .ok events =>
        let r := reduceEvents events
        .ok (⟨"assistant", some r.2, if r.1 = "" then fallback_apology else r.1⟩,
             some chat_messages)

/-- The termination condition installed by every banking orchestrator:
sum(1 for msg in conv if msg.role.value == "user") >= 10. -/
def termination_condition (conv : List Msg) : Bool :=
  decide (10 ≤ conv.foldl (fun acc m => if m.role = "user" then acc + 1 else acc) 0)

/-- One chat record of a user: the dict holding the key messages. -/
structure SessionRec where
  messages : List Msg
deriving DecidableEq, Repr

/-- The chat_histories dict of a user record, as an ordered association
list (Python dicts preserve insertion order). -/
abbrev ChatHistories := List (String × SessionRec)

/-- Dict lookup: user_data.get(chat_histories, dict()).get(chat_id). -/
def lookupChat (h : ChatHistories) (cid : String) : Option SessionRec :=
  match h with
  | [] => none
  | (k, v) :: rest => if k = cid then some v else lookupChat rest cid

/-- Dict assignment user_data[chat_histories][chat_id] = rec: replaces the
binding in place when the key exists, appends it otherwise. -/
def setChat (h : ChatHistories) (cid : String) (s : SessionRec) : ChatHistories :=
  match h with
  | [] => [(cid, s)]
  | (k, v) :: rest => if k = cid then (k, s) :: rest else (k, v) :: setChat rest cid s

/-- The externally visible actions handle_request performs, in order: each
history_db.update_user_info call (with the snapshot written) and each
orchestrator.process_conversation call (with the conversation handed over
and the session id). -/
inductive Action where
  | updateUser (data : ChatHistories)
  | invokeOrchestrator (conversation : List Msg) (sessionId : String)
deriving DecidableEq, Repr

/-- The dict that handle_request returns, by shape. -/
inductive HandlerResult where
  | historyResult
  | notFound (error : String)
  | badRequest (error : String)
  | success (chatId : String) (reply : List Msg)
deriving DecidableEq, Repr

/-- The status_code field of each handle_request result. -/
def status_code : HandlerResult → Nat
  | .historyResult => 200
  | .notFound _ => 404
  | .badRequest _ => 400
  | .success _ _ => 200

/-- The keys of self.orchestrators in the foundry Handler constructor. -/
def known_usecases : List String := ["fsi_insurance", "fsi_banking", "deep_research"]

/-- The tail of handle_request shared by the continue-existing-chat and
start-new-chat branches: append the user message, reject an unknown use
case, otherwise invoke the orchestrator, append its reply, and persist the
updated user record. -/
def handle_core (cid : String) (msgs : List Msg) (data : ChatHistories)
    (trace : List Action) (user_message : String) (usecase_type : String)
    (orchReply : List Msg → Msg) : HandlerResult × List Action :=
  let msgs1 := msgs ++ [⟨"user", some "user", user_message⟩]
  if usecase_type ∈ known_usecases then
    let reply := orchReply msgs1
    let msgs2 := msgs1 ++ [reply]
    let d2 := setChat data cid ⟨msgs2⟩
    (.success cid [reply], trace ++ [.invokeOrchestrator msgs1 cid, .updateUser d2])
  else
    (.badRequest "Use case not recognized", trace)

/-- handle_request of the foundry Handler (the sk Handler follows the same
chat-lifecycle logic).  Inputs beyond the request fields: the user record
read beforehand (its chat_histories), the id that generate_chat_id would
return, and the orchestrator reply as a function of the conversation sent
to it.  Output: the result dict and the trace of store writes and
orchestrator invocations. -/
def handle_request (chat_id : Option String) (user_message : String)
    (load_history : Bool) (usecase_type : String)
    (user_data : ChatHistories) (newChatId : String)
    (orchReply : List Msg → Msg) : HandlerResult × List Action :=
  if load_history then
    (.historyResult, [])
  else
    match chat_id with
    | some cid =>
      match lookupChat user_data cid with
      | some conv =>
          handle_core cid conv.messages user_data [] user_message usecase_type orchReply
      | none => (.notFound "chat_id not found", [])
    | none =>
      let cid := newChatId
      let d1 := setChat user_data cid ⟨[]⟩
      handle_core cid [] d1 [.updateUser d1] user_message usecase_type orchReply

/-- The store state after a trace of actions: each update_user_info call
overwrites the whole user record (last writer wins). -/
def applyWrites (initial : ChatHistories) (trace : List Action) : ChatHistories :=
  trace.foldl
    (fun d a =>
      match a with
      | .updateUser d2 => d2
      | .invokeOrchestrator _ _ => d)
    initial

/-- Program counter of one task executing lazy initialization: ready means
it is about to run the initialized check; building means it passed the
check as false and is awaiting agent creation, after which it will build
the workflow and set the flag; finished means it returned. -/
inductive InitPc where
  | ready
  | building
  | finished
deriving DecidableEq, Repr

/-- Shared state of the lazy-initialization race: the initialized flag,
the number of workflow constructions performed, and each task's pc. -/
structure InitSystem where
  initialized : Bool
  buildCount : Nat
  tasks : List InitPc
deriving DecidableEq, Repr

/-- One scheduler step: run task i to its next suspension point.  At the
check, a task returns at once when the flag is set and otherwise enters
the body (the await on agent creation is the suspension between the check
and the flag assignment, since the source has no lock); a task in the body
builds the workflow, increments the construction count, and sets the flag. -/
def initStep (s : InitSystem) (i : Nat) : InitSystem :=
  match s.tasks[i]? with
  | some .ready =>
      if s.initialized then { s with tasks := s.tasks.set i .finished }
      else { s with tasks := s.tasks.set i .building }
  | some .building =>
      { initialized := true, buildCount := s.buildCount + 1,
        tasks := s.tasks.set i .finished }
  | _ => s

/-- Run an interleaving: the schedule lists which task steps at each point. -/
def runSchedule (s : InitSystem) (sched : List Nat) : InitSystem :=
  sched.foldl initStep s

/-- A freshly constructed orchestrator with n concurrent calls about to
enter lazy initialization. -/
def freshOrch (n : Nat) : InitSystem :=
  { initialized := false, buildCount := 0, tasks := List.replicate n .ready }

/-! ## Helper lemmas -/

theorem reduceStep_eq_candidate (acc : String × String) (ev : WorkflowEvent) :
    reduceStep acc ev = (eventCandidate ev).getD acc := by
  cases ev with
  | requestInfo r src =>
      cases r with
      | none => rfl
      | some r =>
          by_cases ht : r.text = "" <;> simp [reduceStep, eventCandidate, ht]
  | executorCompleted d eid =>
      cases d with
      | none => rfl
      | some d =>
          by_cases ht : d.text = "" <;> simp [reduceStep, eventCandidate, ht]
  | otherEvent => rfl

theorem foldl_reduceStep_eq (events : List WorkflowEvent) :
    ∀ acc, events.foldl reduceStep acc = (events.filterMap eventCandidate).getLastD acc := by
  induction events with
  | nil => intro acc; rfl
  | cons e es ih =>
      intro acc
      rw [List.foldl_cons, ih, reduceStep_eq_candidate]
      cases h : eventCandidate e with
      | none => rw [List.filterMap_cons_none h, Option.getD_none]
      | some c =>
          rw [List.filterMap_cons_some h, Option.getD_some, List.getLastD_cons]

theorem eventCandidate_text_ne (ev : WorkflowEvent) (c : String × String)
    (h : eventCandidate ev = some c) : c.1 ≠ "" := by
  cases ev with
  | requestInfo r src =>
      cases r with
      | none => simp [eventCandidate] at h
      | some r =>
          by_cases ht : r.text = ""
          · simp [eventCandidate, ht] at h
          · simp [eventCandidate, ht] at h
            subst h
            simpa using ht
  | executorCompleted d eid =>
      cases d with
      | none => simp [eventCandidate] at h
      | some d =>
          by_cases ht : d.text = ""
          · simp [eventCandidate, ht] at h
          · simp [eventCandidate, ht] at h
            subst h
            simpa using ht
  | otherEvent => simp [eventCandidate] at h

theorem user_count_foldl (conv : List Msg) :
    ∀ n : Nat,
      conv.foldl (fun acc m => if m.role = "user" then acc + 1 else acc) n
        = n + (conv.filter (fun m => m.role = "user")).length := by
  induction conv with
  | nil => intro n; simp
  | cons m conv ih =>
      intro n
      by_cases h : m.role = "user"
      · simp only [List.foldl_cons, List.filter_cons, h, if_pos rfl, ih]
        simp [h]
        omega
      · simp [h, ih]

theorem process_conversation_init_error (st : OrchState)
    (createAgents : Except String Unit) (msgs : List Msg)
    (runOutcome : Except String (List WorkflowEvent)) (e : OrchError)
    (hinit : ensure_initialized st createAgents = .error e) :
    process_conversation st createAgents msgs runOutcome = .error e := by
  unfold process_conversation
  rw [hinit]

theorem process_conversation_no_message (st : OrchState)
    (createAgents : Except String Unit) (msgs : List Msg)
    (runOutcome : Except String (List WorkflowEvent))
    (hinit : ensure_initialized st createAgents = .ok ())
    (hmsgs : (msgs.filter hasContent).isEmpty = true) :
    process_conversation st createAgents msgs runOutcome
      = .ok (no_message_reply, none) := by
  unfold process_conversation
  rw [hinit]
  simp [hmsgs]

theorem process_conversation_run_error (st : OrchState)
    (createAgents : Except String Unit) (msgs : List Msg) (e : String)
    (hinit : ensure_initialized st createAgents = .ok ())
    (hmsgs : (msgs.filter hasContent).isEmpty = false) :
    process_conversation st createAgents msgs (.error e)
      = .ok (error_reply, some (msgs.filter hasContent)) := by
  unfold process_conversation
  rw [hinit]
  simp [hmsgs]

theorem process_conversation_run_ok (st : OrchState)
    (createAgents : Except String Unit) (msgs : List Msg)
    (events : List WorkflowEvent)
    (hinit : ensure_initialized st createAgents = .ok ())
    (hmsgs : (msgs.filter hasContent).isEmpty = false) :
    process_conversation st createAgents msgs (.ok events)
      = .ok (⟨"assistant", some (reduceEvents events).2,
             if (reduceEvents events).1 = "" then fallback_apology
             else (reduceEvents events).1⟩,
             some (msgs.filter hasContent)) := by
  unfold process_conversation
  rw [hinit]
  simp [hmsgs]

/-! ## Claim theorems -/

/-- Claim C1: the reduction in process_conversation iterates events in
emission order, every event carrying non-empty text is a candidate final
answer, and the last candidate seen supplies the text and author of the
reply, whichever event shape carried it. -/
theorem c1_last_nonempty_candidate_wins
    (st : OrchState) (createAgents : Except String Unit)
    (msgs : List Msg) (events : List WorkflowEvent) (c : String × String)
    (hinit : ensure_initialized st createAgents = .ok ())
    (hmsgs : (msgs.filter hasContent).isEmpty = false)
    (hlast : (events.filterMap eventCandidate).getLast? = some c) :
    process_conversation st createAgents msgs (.ok events)
      = .ok (⟨"assistant", some c.2, c.1⟩, some (msgs.filter hasContent)) := by
  have hred : reduceEvents events = c := by
    rw [reduceEvents, foldl_reduceStep_eq, List.getLastD_eq_getLast?, hlast]
    rfl
  have hne : c.1 ≠ "" := by
    have hmem : c ∈ events.filterMap eventCandidate :=
      List.mem_of_getLast?_eq_some hlast
    obtain ⟨ev, _, hev⟩ := List.mem_filterMap.mp hmem
    exact eventCandidate_text_ne ev c hev
  rw [process_conversation_run_ok st createAgents msgs events hinit hmsgs, hred,
    if_neg hne]

/-- Witness for C1: a five-event stream with non-empty text at positions
1, 3 and 5 (carried by different event shapes) and empty-text or
delegation-only events elsewhere reduces to the text and author of the
fifth event. -/
theorem c1_witness :
    (([WorkflowEvent.requestInfo (some ⟨"first answer"⟩) (some "bank-crm-agent"),
       WorkflowEvent.requestInfo none (some "bank-crm-agent"),
       WorkflowEvent.executorCompleted (some ⟨"second answer"⟩) (some "bank-cio-agent"),
       WorkflowEvent.requestInfo (some ⟨""⟩) none,
       WorkflowEvent.executorCompleted (some ⟨"final answer"⟩) (some "bank-funds-agent")
      ].filterMap eventCandidate).getLast?
        = some ("final answer", "bank-funds-agent"))
    ∧ process_conversation ⟨true, none⟩ (.ok ()) [⟨"user", some "user", "hello"⟩]
        (.ok [WorkflowEvent.requestInfo (some ⟨"first answer"⟩) (some "bank-crm-agent"),
              WorkflowEvent.requestInfo none (some "bank-crm-agent"),
              WorkflowEvent.executorCompleted (some ⟨"second answer"⟩) (some "bank-cio-agent"),
              WorkflowEvent.requestInfo (some ⟨""⟩) none,
              WorkflowEvent.executorCompleted (some ⟨"final answer"⟩) (some "bank-funds-agent")])
        = .ok (⟨"assistant", some "bank-funds-agent", "final answer"⟩,
               some [⟨"user", some "user", "hello"⟩]) :=
  ⟨by decide,
   c1_last_nonempty_candidate_wins ⟨true, none⟩ (.ok ()) [⟨"user", some "user", "hello"⟩]
     [WorkflowEvent.requestInfo (some ⟨"first answer"⟩) (some "bank-crm-agent"),
      WorkflowEvent.requestInfo none (some "bank-crm-agent"),
      WorkflowEvent.executorCompleted (some ⟨"second answer"⟩) (some "bank-cio-agent"),
      WorkflowEvent.requestInfo (some ⟨""⟩) none,
      WorkflowEvent.executorCompleted (some ⟨"final answer"⟩) (some "bank-funds-agent")]
     ("final answer", "bank-funds-agent") rfl (by decide) (by decide)⟩

/-- Claim C2 counterexample: on a not-yet-initialized orchestrator with no
endpoint configured, process_conversation raises out of
ensure_initialized (which runs before the try block), so the exception
propagates to the caller instead of any fallback reply being returned. -/
theorem c2_counterexample :
    process_conversation ⟨false, none⟩ (.ok ()) [⟨"user", some "user", "hello"⟩] (.ok [])
      = .error .missingEndpoint
    ∧ ∀ r : Msg × Option (List Msg),
        process_conversation ⟨false, none⟩ (.ok ()) [⟨"user", some "user", "hello"⟩] (.ok [])
          ≠ .ok r :=
  ⟨rfl, fun _ h => nomatch h⟩

/-- Claim C2 amended: once lazy initialization succeeds, no exception
escapes process_conversation: every run outcome, including a raised
exception, is converted into an assistant-role reply. -/
theorem c2_no_raise_after_successful_init
    (st : OrchState) (createAgents : Except String Unit)
    (msgs : List Msg) (runOutcome : Except String (List WorkflowEvent))
    (hinit : ensure_initialized st createAgents = .ok ()) :
    ∃ (reply : Msg) (sent : Option (List Msg)),
      process_conversation st createAgents msgs runOutcome = .ok (reply, sent)
      ∧ reply.role = "assistant" := by
  cases he : (msgs.filter hasContent).isEmpty with
  | true =>
      exact ⟨no_message_reply, none,
        process_conversation_no_message st createAgents msgs runOutcome hinit he, rfl⟩
  | false =>
      cases runOutcome with
      | error e =>
          exact ⟨error_reply, some (msgs.filter hasContent),
            process_conversation_run_error st createAgents msgs e hinit he, rfl⟩
      | ok events =>
          exact ⟨⟨"assistant", some (reduceEvents events).2,
            if (reduceEvents events).1 = "" then fallback_apology
            else (reduceEvents events).1⟩,
            some (msgs.filter hasContent),
            process_conversation_run_ok st createAgents msgs events hinit he, rfl⟩

/-- Witness for C2 amended: on an initialized orchestrator, a run that
raises still yields an assistant reply. -/
theorem c2_witness :
    ensure_initialized ⟨true, none⟩ (.ok ()) = .ok ()
    ∧ ∃ (reply : Msg) (sent : Option (List Msg)),
        process_conversation ⟨true, none⟩ (.ok ())
            [⟨"user", some "user", "hi"⟩] (.error "boom")
          = .ok (reply, sent)
        ∧ reply.role = "assistant" :=
  ⟨rfl,
   c2_no_raise_after_successful_init ⟨true, none⟩ (.ok ())
     [⟨"user", some "user", "hi"⟩] (.error "boom") rfl⟩

/-- Claim C3: the installed termination condition holds exactly when the
conversation contains at least 10 user-role messages, and appending a
message from any non-user speaker never changes it. -/
theorem c3_termination_iff_ten_user_messages (conv : List Msg) :
    (termination_condition conv = true
       ↔ 10 ≤ (conv.filter (fun m => m.role = "user")).length)
    ∧ ∀ m : Msg, m.role ≠ "user" →
        termination_condition (conv ++ [m]) = termination_condition conv := by
  constructor
  · simp [termination_condition, user_count_foldl]
  · intro m hm
    simp [termination_condition, List.foldl_append, hm]

/-- Witness for C3: ten user messages force termination, and an appended
assistant message leaves the condition unchanged. -/
theorem c3_witness :
    termination_condition (List.replicate 10 ⟨"user", some "user", "hi"⟩) = true
    ∧ termination_condition
        (List.replicate 10 ⟨"user", some "user", "hi"⟩
          ++ [⟨"assistant", some "bank-crm-agent", "ok"⟩])
        = termination_condition (List.replicate 10 ⟨"user", some "user", "hi"⟩) :=
  ⟨(c3_termination_iff_ten_user_messages
      (List.replicate 10 ⟨"user", some "user", "hi"⟩)).1.mpr (by decide),
   (c3_termination_iff_ten_user_messages
      (List.replicate 10 ⟨"user", some "user", "hi"⟩)).2
     ⟨"assistant", some "bank-crm-agent", "ok"⟩ (by decide)⟩

/-- Claim C4: when no event of the stream carries non-empty text, the
reply is the literal fallback apology, which is not the empty string, and
the call returns normally. -/
theorem c4_fallback_on_empty_stream
    (st : OrchState) (createAgents : Except String Unit)
    (msgs : List Msg) (events : List WorkflowEvent)
    (hinit : ensure_initialized st createAgents = .ok ())
    (hmsgs : (msgs.filter hasContent).isEmpty = false)
    (hnone : ∀ ev ∈ events, eventCandidate ev = none) :
    process_conversation st createAgents msgs (.ok events)
      = .ok (⟨"assistant", some "bank-coordinator", fallback_apology⟩,
             some (msgs.filter hasContent))
    ∧ fallback_apology ≠ "" := by
  have hfm : events.filterMap eventCandidate = [] :=
    List.filterMap_eq_nil_iff.mpr hnone
  have hred : reduceEvents events = ("", "bank-coordinator") := by
    rw [reduceEvents, foldl_reduceStep_eq, hfm]
    rfl
  refine ⟨?_, by decide⟩
  rw [process_conversation_run_ok st createAgents msgs events hinit hmsgs, hred,
    if_pos rfl]

/-- Witness for C4: a stream of delegation-only and empty-text events
reduces to the fallback apology. -/
theorem c4_witness :
    (∀ ev ∈ [WorkflowEvent.otherEvent,
             WorkflowEvent.requestInfo none (some "bank-crm-agent"),
             WorkflowEvent.requestInfo (some ⟨""⟩) none,
             WorkflowEvent.executorCompleted none (some "bank-cio-agent"),
             WorkflowEvent.executorCompleted (some ⟨""⟩) none],
        eventCandidate ev = none)
    ∧ process_conversation ⟨true, none⟩ (.ok ()) [⟨"user", some "user", "hello"⟩]
        (.ok [WorkflowEvent.otherEvent,
              WorkflowEvent.requestInfo none (some "bank-crm-agent"),
              WorkflowEvent.requestInfo (some ⟨""⟩) none,
              WorkflowEvent.executorCompleted none (some "bank-cio-agent"),
              WorkflowEvent.executorCompleted (some ⟨""⟩) none])
        = .ok (⟨"assistant", some "bank-coordinator", fallback_apology⟩,
               some [⟨"user", some "user", "hello"⟩])
    ∧ fallback_apology ≠ "" :=
  ⟨by decide,
   (c4_fallback_on_empty_stream ⟨true, none⟩ (.ok ()) [⟨"user", some "user", "hello"⟩]
     [WorkflowEvent.otherEvent,
      WorkflowEvent.requestInfo none (some "bank-crm-agent"),
      WorkflowEvent.requestInfo (some ⟨""⟩) none,
      WorkflowEvent.executorCompleted none (some "bank-cio-agent"),
      WorkflowEvent.executorCompleted (some ⟨""⟩) none]
     rfl (by decide) (by decide)).1,
   (c4_fallback_on_empty_stream ⟨true, none⟩ (.ok ()) [⟨"user", some "user", "hello"⟩]
     [WorkflowEvent.otherEvent,
      WorkflowEvent.requestInfo none (some "bank-crm-agent"),
      WorkflowEvent.requestInfo (some ⟨""⟩) none,
      WorkflowEvent.executorCompleted none (some "bank-cio-agent"),
      WorkflowEvent.executorCompleted (some ⟨""⟩) none]
     rfl (by decide) (by decide)).2⟩

theorem lookupChat_setChat_self (h : ChatHistories) (cid : String) (s : SessionRec) :
    lookupChat (setChat h cid s) cid = some s := by
  induction h with
  | nil => simp [setChat, lookupChat]
  | cons kv rest ih =>
      obtain ⟨k, v⟩ := kv
      by_cases hk : k = cid
      · simp [setChat, lookupChat, hk]
      · simp [setChat, lookupChat, hk, ih]

theorem lookupChat_setChat_ne (h : ChatHistories) (cid c : String) (s : SessionRec)
    (hne : c ≠ cid) :
    lookupChat (setChat h cid s) c = lookupChat h c := by
  induction h with
  | nil => simp [setChat, lookupChat, Ne.symm hne]
  | cons kv rest ih =>
      obtain ⟨k, v⟩ := kv
      by_cases hk : k = cid
      · subst hk
        simp [setChat, lookupChat, Ne.symm hne]
      · simp [setChat, lookupChat, hk, ih]

/-- Claim C5: a request carrying a chat_id that is not among the user's
chat histories yields the 404 not-found result, performs no store write
and no orchestrator invocation, and leaves the store state unchanged. -/
theorem c5_unknown_session_not_found
    (cid user_message usecase_type : String) (user_data : ChatHistories)
    (newChatId : String) (orchReply : List Msg → Msg)
    (hmiss : lookupChat user_data cid = none) :
    handle_request (some cid) user_message false usecase_type user_data
        newChatId orchReply
      = (.notFound "chat_id not found", [])
    ∧ applyWrites user_data
        (handle_request (some cid) user_message false usecase_type user_data
          newChatId orchReply).2 = user_data := by
  have h1 : handle_request (some cid) user_message false usecase_type user_data
      newChatId orchReply = (.notFound "chat_id not found", []) := by
    simp [handle_request, hmiss]
  refine ⟨h1, ?_⟩
  rw [h1]
  rfl

/-- Witness for C5: continuing with a fabricated chat_id on a user that
has one other session returns 404 and writes nothing. -/
theorem c5_witness :
    lookupChat [("s1", ⟨[⟨"user", some "user", "hi"⟩]⟩)] "s2" = none
    ∧ handle_request (some "s2") "hello" false "fsi_banking"
        [("s1", ⟨[⟨"user", some "user", "hi"⟩]⟩)] "n1"
        (fun _ => ⟨"assistant", some "bank-crm-agent", "ok"⟩)
        = (.notFound "chat_id not found", [])
    ∧ applyWrites [("s1", ⟨[⟨"user", some "user", "hi"⟩]⟩)]
        (handle_request (some "s2") "hello" false "fsi_banking"
          [("s1", ⟨[⟨"user", some "user", "hi"⟩]⟩)] "n1"
          (fun _ => ⟨"assistant", some "bank-crm-agent", "ok"⟩)).2
        = [("s1", ⟨[⟨"user", some "user", "hi"⟩]⟩)] :=
  ⟨rfl,
   (c5_unknown_session_not_found "s2" "hello" "fsi_banking"
     [("s1", ⟨[⟨"user", some "user", "hi"⟩]⟩)] "n1"
     (fun _ => ⟨"assistant", some "bank-crm-agent", "ok"⟩) rfl).1,
   (c5_unknown_session_not_found "s2" "hello" "fsi_banking"
     [("s1", ⟨[⟨"user", some "user", "hi"⟩]⟩)] "n1"
     (fun _ => ⟨"assistant", some "bank-crm-agent", "ok"⟩) rfl).2⟩

/-- Claim C6: with no chat_id supplied and a known use case, the handler
takes the id produced by generate_chat_id, records the session with an
empty message list and persists the user record, and only after that
write invokes the orchestrator; the final write then persists the user
message and the reply. -/
theorem c6_new_session_persisted_before_orchestrator
    (user_message usecase_type : String) (user_data : ChatHistories)
    (newChatId : String) (orchReply : List Msg → Msg)
    (huse : usecase_type ∈ known_usecases) :
    handle_request none user_message false usecase_type user_data newChatId orchReply
      = (.success newChatId [orchReply [⟨"user", some "user", user_message⟩]],
         [.updateUser (setChat user_data newChatId ⟨[]⟩),
          .invokeOrchestrator [⟨"user", some "user", user_message⟩] newChatId,
          .updateUser (setChat (setChat user_data newChatId ⟨[]⟩) newChatId
            ⟨[⟨"user", some "user", user_message⟩,
              orchReply [⟨"user", some "user", user_message⟩]]⟩)]) := by
  simp [handle_request, handle_core, huse]

/-- Witness for C6: a concrete new-session request produces the
write-then-invoke-then-write trace. -/
theorem c6_witness :
    ("fsi_banking" ∈ known_usecases)
    ∧ handle_request none "hello" false "fsi_banking"
        [] "n1" (fun _ => ⟨"assistant", some "bank-cio-agent", "ans"⟩)
        = (.success "n1" [⟨"assistant", some "bank-cio-agent", "ans"⟩],
           [.updateUser [("n1", ⟨[]⟩)],
            .invokeOrchestrator [⟨"user", some "user", "hello"⟩] "n1",
            .updateUser [("n1", ⟨[⟨"user", some "user", "hello"⟩,
              ⟨"assistant", some "bank-cio-agent", "ans"⟩]⟩)]]) :=
  ⟨by decide,
   c6_new_session_persisted_before_orchestrator "hello" "fsi_banking" [] "n1"
     (fun _ => ⟨"assistant", some "bank-cio-agent", "ans"⟩) (by decide)⟩

/-- Claim C7: whenever handle_request succeeds, the persisted state of the
addressed session equals its previous message list plus the user message
and the single orchestrator reply, in that order, and every other session
of the user is unchanged. -/
theorem c7_success_appends_user_and_reply
    (chat_id : Option String) (user_message usecase_type : String)
    (user_data : ChatHistories) (newChatId : String) (orchReply : List Msg → Msg)
    (cid : String) (replies : List Msg)
    (prev : List Msg) (userMsg reply : Msg) (final : ChatHistories)
    (hfresh : chat_id = none → lookupChat user_data newChatId = none)
    (hres : (handle_request chat_id user_message false usecase_type user_data
        newChatId orchReply).1 = .success cid replies)
    (hprev : prev = ((lookupChat user_data cid).map SessionRec.messages).getD [])
    (huser : userMsg = ⟨"user", some "user", user_message⟩)
    (hreply : reply = orchReply (prev ++ [userMsg]))
    (hfinal : final = applyWrites user_data
      (handle_request chat_id user_message false usecase_type user_data
        newChatId orchReply).2) :
    replies = [reply]
    ∧ lookupChat final cid = some ⟨prev ++ [userMsg, reply]⟩
    ∧ ∀ c, c ≠ cid → lookupChat final c = lookupChat user_data c := by
  subst huser
  subst hreply
  subst hfinal
  subst hprev
  by_cases hu : usecase_type ∈ known_usecases
  · cases chat_id with
    | some c0 =>
        cases hl : lookupChat user_data c0 with
        | none => simp [handle_request, hl] at hres
        | some conv =>
            have heq : handle_request (some c0) user_message false usecase_type
                user_data newChatId orchReply
              = (.success c0 [orchReply (conv.messages
                    ++ [⟨"user", some "user", user_message⟩])],
                 [.invokeOrchestrator (conv.messages
                    ++ [⟨"user", some "user", user_message⟩]) c0,
                  .updateUser (setChat user_data c0
                    ⟨conv.messages ++ [⟨"user", some "user", user_message⟩,
                       orchReply (conv.messages
                         ++ [⟨"user", some "user", user_message⟩])]⟩)]) := by
              simp [handle_request, handle_core, hl, hu]
            rw [heq] at hres
            obtain ⟨hc, hr⟩ := HandlerResult.success.inj hres
            subst hc
            subst hr
            refine ⟨by simp [hl], ?_, ?_⟩
            · rw [heq]
              show lookupChat (setChat user_data c0 _) c0 = _
              rw [lookupChat_setChat_self]
              simp [hl]
            · intro c hc
              rw [heq]
              show lookupChat (setChat user_data c0 _) c = _
              exact lookupChat_setChat_ne user_data c0 c _ hc
    | none =>
        have hfr : lookupChat user_data newChatId = none := hfresh rfl
        have heq := c6_new_session_persisted_before_orchestrator user_message
          usecase_type user_data newChatId orchReply hu
        rw [heq] at hres
        obtain ⟨hc, hr⟩ := HandlerResult.success.inj hres
        subst hc
        subst hr
        refine ⟨by simp [hfr], ?_, ?_⟩
        · rw [heq]
          show lookupChat (setChat (setChat user_data newChatId ⟨[]⟩) newChatId _)
            newChatId = _
          rw [lookupChat_setChat_self]
          simp [hfr]
        · intro c hc
          rw [heq]
          show lookupChat (setChat (setChat user_data newChatId ⟨[]⟩) newChatId _) c
            = _
          rw [lookupChat_setChat_ne _ newChatId c _ hc,
            lookupChat_setChat_ne _ newChatId c _ hc]
  · cases chat_id with
    | some c0 =>
        cases hl : lookupChat user_data c0 with
        | none => simp [handle_request, hl] at hres
        | some conv => simp [handle_request, handle_core, hl, hu] at hres
    | none => simp [handle_request, handle_core, hu] at hres

/-- Witness for C7: continuing an existing session appends exactly the
user message and the reply and leaves every other session intact. -/
theorem c7_witness :
    (handle_request (some "s1") "hello" false "fsi_banking"
        [("s1", ⟨[⟨"assistant", some "bank-crm-agent", "old"⟩]⟩),
         ("s2", ⟨[⟨"user", some "user", "other"⟩]⟩)] "n1"
        (fun _ => ⟨"assistant", some "bank-cio-agent", "ans"⟩)).1
      = .success "s1" [⟨"assistant", some "bank-cio-agent", "ans"⟩]
    ∧ ([⟨"assistant", some "bank-cio-agent", "ans"⟩] : List Msg)
        = [⟨"assistant", some "bank-cio-agent", "ans"⟩]
    ∧ lookupChat
        [("s1", ⟨[⟨"assistant", some "bank-crm-agent", "old"⟩,
                  ⟨"user", some "user", "hello"⟩,
                  ⟨"assistant", some "bank-cio-agent", "ans"⟩]⟩),
         ("s2", ⟨[⟨"user", some "user", "other"⟩]⟩)] "s1"
        = some ⟨[⟨"assistant", some "bank-crm-agent", "old"⟩]
            ++ [⟨"user", some "user", "hello"⟩,
                ⟨"assistant", some "bank-cio-agent", "ans"⟩]⟩
    ∧ ∀ c, c ≠ "s1"
        → lookupChat
            [("s1", ⟨[⟨"assistant", some "bank-crm-agent", "old"⟩,
                      ⟨"user", some "user", "hello"⟩,
                      ⟨"assistant", some "bank-cio-agent", "ans"⟩]⟩),
             ("s2", ⟨[⟨"user", some "user", "other"⟩]⟩)] c
          = lookupChat
              [("s1", ⟨[⟨"assistant", some "bank-crm-agent", "old"⟩]⟩),
               ("s2", ⟨[⟨"user", some "user", "other"⟩]⟩)] c := by
  have h := c7_success_appends_user_and_reply (some "s1") "hello" "fsi_banking"
    [("s1", ⟨[⟨"assistant", some "bank-crm-agent", "old"⟩]⟩),
     ("s2", ⟨[⟨"user", some "user", "other"⟩]⟩)] "n1"
    (fun _ => ⟨"assistant", some "bank-cio-agent", "ans"⟩) "s1"
    [⟨"assistant", some "bank-cio-agent", "ans"⟩]
    [⟨"assistant", some "bank-crm-agent", "old"⟩]
    ⟨"user", some "user", "hello"⟩ ⟨"assistant", some "bank-cio-agent", "ans"⟩
    [("s1", ⟨[⟨"assistant", some "bank-crm-agent", "old"⟩,
              ⟨"user", some "user", "hello"⟩,
              ⟨"assistant", some "bank-cio-agent", "ans"⟩]⟩),
     ("s2", ⟨[⟨"user", some "user", "other"⟩]⟩)]
    (fun hh => nomatch hh) rfl rfl rfl rfl rfl
  exact ⟨rfl, h.1.symm ▸ rfl, h.2.1, h.2.2⟩

theorem initStep_stable (s : InitSystem) (i : Nat)
    (h1 : s.initialized = true) (h2 : InitPc.building ∉ s.tasks) :
    (initStep s i).initialized = true
    ∧ (initStep s i).buildCount = s.buildCount
    ∧ InitPc.building ∉ (initStep s i).tasks := by
  cases hg : s.tasks[i]? with
  | none => simp [initStep, hg, h1, h2]
  | some pc =>
      cases pc with
      | ready =>
          have hset : InitPc.building ∉ s.tasks.set i .finished := by
            intro hmem
            rcases List.mem_or_eq_of_mem_set hmem with hmem2 | heq
            · exact h2 hmem2
            · exact InitPc.noConfusion heq
          simp [initStep, hg, h1, hset]
      | building =>
          exact absurd (List.getElem?_mem hg) h2
      | finished => simp [initStep, hg, h1, h2]

theorem runSchedule_stable (sched : List Nat) :
    ∀ s : InitSystem, s.initialized = true → InitPc.building ∉ s.tasks →
      (runSchedule s sched).initialized = true
      ∧ (runSchedule s sched).buildCount = s.buildCount
      ∧ InitPc.building ∉ (runSchedule s sched).tasks := by
  induction sched with
  | nil => exact fun s h1 h2 => ⟨h1, rfl, h2⟩
  | cons i rest ih =>
      intro s h1 h2
      obtain ⟨g1, g2, g3⟩ := initStep_stable s i h1 h2
      obtain ⟨r1, r2, r3⟩ := ih (initStep s i) g1 g3
      exact ⟨r1, r2.trans g2, r3⟩

/-- Claim C8 counterexample: two process_conversation calls interleaved at
the unguarded initialized check both find the flag unset, both proceed,
and both construct the workflow: the construction race does not collapse
to a single build. -/
theorem c8_counterexample :
    (runSchedule (freshOrch 2) [0, 1, 0, 1]).buildCount = 2
    ∧ (runSchedule (freshOrch 2) [0, 1, 0, 1]).tasks
        = [InitPc.finished, InitPc.finished]
    ∧ (runSchedule (freshOrch 2) [0, 1, 0, 1]).buildCount ≠ 1 := by decide

/-- Claim C8 amended: the lazy-init check has no lock, so builds are only
unique when no overlap occurs at the check: once one call has completed
initialization before any other call reaches the check, exactly one
construction has happened and every subsequent schedule leaves the count
at one with the flag set; interleaved first calls can build more than
once. -/
theorem c8_completed_first_call_builds_once (n : Nat) (sched : List Nat) :
    (runSchedule (runSchedule (freshOrch (n + 1)) [0, 0]) sched).buildCount = 1
    ∧ (runSchedule (runSchedule (freshOrch (n + 1)) [0, 0]) sched).initialized
        = true := by
  have h0 : runSchedule (freshOrch (n + 1)) [0, 0]
      = { initialized := true, buildCount := 1,
          tasks := InitPc.finished :: List.replicate n .ready } := by
    simp [runSchedule, freshOrch, initStep, List.replicate_succ]
  have hnb : InitPc.building ∉ (InitPc.finished :: List.replicate n InitPc.ready) := by
    intro hmem
    rcases List.mem_cons.mp hmem with h | h
    · exact InitPc.noConfusion h
    · exact InitPc.noConfusion (List.eq_of_mem_replicate h)
  rw [h0]
  obtain ⟨a, b, _⟩ := runSchedule_stable sched
    { initialized := true, buildCount := 1,
      tasks := InitPc.finished :: List.replicate n .ready } rfl hnb
  exact ⟨b, a⟩

/-- Claim C10: process_conversation drops every empty-content input
message; it returns the fixed coordinator reply with the workflow never
invoked exactly when no message survives the filter, and whenever the
workflow does run it receives precisely the filtered messages. -/
theorem c10_empty_filter_short_circuit (st : OrchState)
    (createAgents : Except String Unit) (msgs : List Msg)
    (runOutcome : Except String (List WorkflowEvent))
    (hinit : ensure_initialized st createAgents = .ok ()) :
    (process_conversation st createAgents msgs runOutcome
        = .ok (⟨"assistant", some "coordinator",
            "I didn\x27t receive a message. How can I help you?"⟩, none)
      ↔ msgs.filter hasContent = [])
    ∧ ∀ (reply : Msg) (sent : List Msg),
        process_conversation st createAgents msgs runOutcome = .ok (reply, some sent)
        → sent = msgs.filter hasContent := by
  constructor
  · constructor
    · intro h
      cases he : (msgs.filter hasContent).isEmpty with
      | true => exact List.isEmpty_iff.mp he
      | false =>
          cases runOutcome with
          | error e =>
              rw [process_conversation_run_error st createAgents msgs e hinit he] at h
              simp at h
          | ok events =>
              rw [process_conversation_run_ok st createAgents msgs events hinit he] at h
              simp at h
    · intro h
      have he : (msgs.filter hasContent).isEmpty = true := by
        rw [h]
        rfl
      exact process_conversation_no_message st createAgents msgs runOutcome hinit he
  · intro reply sent h
    cases he : (msgs.filter hasContent).isEmpty with
    | true =>
        rw [process_conversation_no_message st createAgents msgs runOutcome hinit he]
          at h
        simp at h
    | false =>
        cases runOutcome with
        | error e =>
            rw [process_conversation_run_error st createAgents msgs e hinit he] at h
            simp only [Except.ok.injEq, Prod.mk.injEq, Option.some.injEq] at h
            exact h.2.symm
        | ok events =>
            rw [process_conversation_run_ok st createAgents msgs events hinit he] at h
            simp only [Except.ok.injEq, Prod.mk.injEq, Option.some.injEq] at h
            exact h.2.symm

/-- Witness for C10: a conversation of two empty-content messages yields
the fixed coordinator reply without invoking the workflow. -/
theorem c10_witness :
    ensure_initialized ⟨true, none⟩ (.ok ()) = .ok ()
    ∧ (process_conversation ⟨true, none⟩ (.ok ())
        [⟨"user", some "user", ""⟩, ⟨"assistant", some "bank-crm-agent", ""⟩]
        (.ok [])
        = .ok (⟨"assistant", some "coordinator",
            "I didn\x27t receive a message. How can I help you?"⟩, none)
      ↔ ([⟨"user", some "user", ""⟩,
          (⟨"assistant", some "bank-crm-agent", ""⟩ : Msg)].filter hasContent = []))
    ∧ ∀ (reply : Msg) (sent : List Msg),
        process_conversation ⟨true, none⟩ (.ok ())
          [⟨"user", some "user", ""⟩, ⟨"assistant", some "bank-crm-agent", ""⟩]
          (.ok []) = .ok (reply, some sent)
        → sent = [⟨"user", some "user", ""⟩,
            (⟨"assistant", some "bank-crm-agent", ""⟩ : Msg)].filter hasContent :=
  ⟨rfl,
   (c10_empty_filter_short_circuit ⟨true, none⟩ (.ok ())
     [⟨"user", some "user", ""⟩, ⟨"assistant", some "bank-crm-agent", ""⟩]
     (.ok []) rfl).1,
   (c10_empty_filter_short_circuit ⟨true, none⟩ (.ok ())
     [⟨"user", some "user", ""⟩, ⟨"assistant", some "bank-crm-agent", ""⟩]
     (.ok []) rfl).2⟩

end Moneta
